import Mathlib

/-
  Shallow embedding of the transparent-security analytics core
  (src/trans_sec/analytics/oinc.py and
  src/trans_sec/device_software/receive_packets.py).

  Timestamps are modelled as rationals (seconds).  The source uses two
  clocks (datetime.datetime.now and time.time); both denote the current
  wall-clock time in seconds and are modelled by the single time
  parameter passed to each step function.  Wall-clock time in the source
  is a float; its arithmetic (subtraction, comparison, division) is
  modelled exactly over the rationals.
-/

namespace TransSec

/-- One decoded scapy layer bundle: the fields of a frame that
extract_int_data and SimpleAE.process_packet read.  Each layer is
optional; in scapy, accessing a missing layer raises, which the source
catches, so a missing layer is modelled as none. -/
structure EtherLayer where
  src : String
  dst : String
  deriving DecidableEq

/-- IP layer fields read by the source: src, dst, proto. -/
structure IPLayer where
  src : String
  dst : String
  proto : Nat
  deriving DecidableEq

/-- UDP layer fields read by the source: dport (sport unused here). -/
structure UDPLayer where
  sport : Nat
  dport : Nat
  deriving DecidableEq

/-- SwitchINTInspect layer: switch_id. -/
structure SwitchINTInspectLayer where
  switch_id : Nat
  deriving DecidableEq

/-- GatewayINTInspect layer: src_mac (the originating device MAC). -/
structure GatewayINTInspectLayer where
  src_mac : String
  deriving DecidableEq

/-- A decoded frame as handed to the analytics callback.  len models
len(packet). -/
structure Packet where
  ether : Option EtherLayer
  ip : Option IPLayer
  swInspect : Option SwitchINTInspectLayer
  gwInspect : Option GatewayINTInspectLayer
  udp : Option UDPLayer
  len : Nat
  deriving DecidableEq

/-- The dict built by extract_int_data (oinc.py lines 112-120): keys
devMac, devAddr, switchId, dstAddr, dstPort, protocol, packetLen. -/
structure IntData where
  devMac : String
  devAddr : String
  switchId : Nat
  dstAddr : String
  dstPort : Nat
  protocol : Nat
  packetLen : Nat
  deriving DecidableEq

/-- extract_int_data (oinc.py lines 103-125).  The dict construction
reads packet[GatewayINTInspect].src_mac, packet[IP].src,
packet[SwitchINTInspect].switch_id, packet[IP].dst, packet[UDP].dport,
packet[IP].proto and len(packet) inside one try block; any missing
layer raises and the except arm returns None, so the result is the full
record or nothing. -/
def extract_int_data (p : Packet) : Option IntData :=
  match p.gwInspect, p.ip, p.swInspect, p.udp with
  | some gw, some ipl, some sw, some ud =>
      some { devMac := gw.src_mac
             devAddr := ipl.src
             switchId := sw.switch_id
             dstAddr := ipl.dst
             dstPort := ud.dport
             protocol := ipl.proto
             packetLen := p.len }
  | _, _, _, _ => none

/-- Association-list model of a Python dict: get. -/
def mapGet {α β : Type} [DecidableEq α] : List (α × β) → α → Option β
  | [], _ => none
  | (k, v) :: rest, key => if k = key then some v else mapGet rest key

/-- Association-list model of a Python dict: set (insert or replace). -/
def mapSet {α β : Type} [DecidableEq α] : List (α × β) → α → β → List (α × β)
  | [], key, v => [(key, v)]
  | (k, w) :: rest, key, v =>
      if k = key then (key, v) :: rest else (k, w) :: mapSet rest key v

/-- Python list.remove(x): deletes the first element equal to x (no-op
on a list not containing x never occurs in the modelled loop, where x
was just read from the list). -/
def listRemove (x : ℚ) : List ℚ → List ℚ
  | [] => []
  | a :: rest => if a = x then rest else a :: listRemove x rest

/-- The pruning loop of SimpleAE.__process (oinc.py lines 317-323):

  count = 0
  for eval_time in times:
      delta = (curr_time - eval_time).total_seconds()
      if delta > self.sample_interval:
          times.remove(eval_time)
      else:
          count += 1

CPython list iteration keeps a cursor index that advances by one after
every yielded element, even when the body removes the element just
yielded, so a removal shifts the list left and the element after the
removed one is skipped (neither examined nor counted).  The fuel
argument bounds the iteration; the cursor i advances on every step and
the list never grows, so fuel equal to the initial length is exact. -/
def pruneFuel (curr interval : ℚ) : Nat → List ℚ → Nat → Nat → List ℚ × Nat
  | 0, times, _, count => (times, count)
  | fuel + 1, times, i, count =>
    match times.get? i with
    | none => (times, count)
    | some t =>
      if curr - t > interval then
        pruneFuel curr interval fuel (listRemove t times) (i + 1) count
      else
        pruneFuel curr interval fuel times (i + 1) (count + 1)

/-- Runs the pruning loop from cursor 0 as the source does. -/
def pruneRun (curr interval : ℚ) (times : List ℚ) : List ℚ × Nat :=
  pruneFuel curr interval times.length times 0 0

/-- Configuration of a PacketAnalytics engine (oinc.py lines 36-46):
packet_count is the attack threshold, sample_interval the counting
window in seconds. -/
structure AEConfig where
  packet_count : Nat
  sample_interval : ℚ
  deriving DecidableEq

/-- Mutable state of SimpleAE: count_map maps the key derived from the
extracted INT data to the list of observation timestamps, attack_map to
the time the last attack notification was issued.  The source keys both
maps by hash(str(int_data)); str is injective on these dicts and hash
is deterministic, so the key is modelled as the IntData value itself
(hash collisions between distinct records are not modelled). -/
structure SimpleAEState where
  count_map : List (IntData × List ℚ)
  attack_map : List (IntData × ℚ)
  deriving DecidableEq

/-- The attack dict POSTed to the SDN controller
(oinc.py lines 329-335). -/
structure AttackDict where
  src_mac : String
  src_ip : String
  dst_ip : String
  dst_port : Nat
  packet_size : Nat
  attack_type : String
  deriving DecidableEq

/-- Builds the attack dict of SimpleAE.__process from the extracted
data. -/
def attackDictOf (d : IntData) : AttackDict :=
  { src_mac := d.devMac
    src_ip := d.devAddr
    dst_ip := d.dstAddr
    dst_port := d.dstPort
    packet_size := d.packetLen
    attack_type := "UDP Flood" }

/-- The times list of the current key with the new observation
appended, as in oinc.py lines 311-316 (a missing or empty entry is
replaced by a fresh list before the append). -/
def observeTimes (st : SimpleAEState) (d : IntData) (now : ℚ) : List ℚ :=
  ((mapGet st.count_map d).getD []) ++ [now]

/-- The (surviving times, count) pair computed by the pruning loop of
SimpleAE.__process at one observation. -/
def observeStep (cfg : AEConfig) (st : SimpleAEState) (d : IntData) (now : ℚ) :
    List ℚ × Nat :=
  pruneRun now cfg.sample_interval (observeTimes st d now)

/-- SimpleAE.__process (oinc.py lines 302-357).  now models both
datetime.datetime.now() and time.time() at this call; send_ok models
whether self._send_attack returns normally (true) or raises (false) -
the except arm logs and returns False.  Result: (returned boolean, new
state, the attack dict passed to _send_attack if it was invoked).
The debounce guard is the literal source condition
  if not last_attack or time.time() - last_attack > 1
so a stored last time equal to 0 counts as falsy, and the renotify
interval is the hard-coded literal 1. -/
def simpleProcess (cfg : AEConfig) (st : SimpleAEState) (d : IntData)
    (now : ℚ) (send_ok : Bool) : Bool × SimpleAEState × Option AttackDict :=
  let stepped := observeStep cfg st d now
  let count_map1 := mapSet st.count_map d stepped.1
  if stepped.2 > cfg.packet_count then
    match mapGet st.attack_map d with
    | none =>
        (send_ok, ⟨count_map1, mapSet st.attack_map d now⟩, some (attackDictOf d))
    | some la =>
        if la = 0 ∨ now - la > 1 then
          (send_ok, ⟨count_map1, mapSet st.attack_map d now⟩, some (attackDictOf d))
        else
          (false, ⟨count_map1, st.attack_map⟩, none)
  else
    (false, ⟨count_map1, st.attack_map⟩, none)

/-- SimpleAE.process_packet (oinc.py lines 274-300): reads
packet[IP].proto (None when the layer is missing), compares it against
the ip_proto filter, extracts the INT data and runs __process; any
earlier failure returns False with the state untouched. -/
def simpleProcessPacket (cfg : AEConfig) (st : SimpleAEState) (p : Packet)
    (ip_proto : Nat) (now : ℚ) (send_ok : Bool) :
    Bool × SimpleAEState × Option AttackDict :=
  match p.ip with
  | none => (false, st, none)
  | some ipl =>
    if ipl.proto = ip_proto then
      match extract_int_data p with
      | some d => simpleProcess cfg st d now send_ok
      | none => (false, st, none)
    else
      (false, st, none)

/-- A Python value stored in the extracted-data dict or used as an
anytree node name: a string or a number. -/
inductive PyVal where
  | s : String → PyVal
  | n : Nat → PyVal
  deriving DecidableEq

/-- Python dict.get on a string-keyed dict: some value when the key is
present, none otherwise. -/
def dictGet : List (String × PyVal) → String → Option PyVal
  | [], _ => none
  | (k, v) :: rest, key => if k = key then some v else dictGet rest key

/-- The dict produced by extract_int_data, with its literal keys
(oinc.py lines 112-120): devMac, devAddr, switchId, dstAddr, dstPort,
protocol, packetLen. -/
def intDataDict (d : IntData) : List (String × PyVal) :=
  [("devMac", .s d.devMac), ("devAddr", .s d.devAddr),
   ("switchId", .n d.switchId), ("dstAddr", .s d.dstAddr),
   ("dstPort", .n d.dstPort), ("protocol", .n d.protocol),
   ("packetLen", .n d.packetLen)]

/-- The count node hanging under a packet-size leaf of the Oinc tree
(packet_size.children[0] in oinc.py lines 235-260): attributes value,
time, pps, attack. -/
structure CountNode where
  value : Nat
  time : ℚ
  pps : ℚ
  attack : Bool
  deriving DecidableEq

/-- An anytree node of the Oinc prefix tree: a name, an optional count
child (only packet-size leaves carry one) and the list of child
nodes. -/
inductive OincTree where
  | mk : PyVal → Option CountNode → List OincTree → OincTree

/-- Name attribute of a tree node. -/
def treeName : OincTree → PyVal
  | .mk nm _ _ => nm

/-- Children of a tree node. -/
def treeChildren : OincTree → List OincTree
  | .mk _ _ cs => cs

/-- anytree search.findall_by_attr(node, v, name=name, maxlevel=2,
maxcount=1) followed by taking element 0 when nonempty, as the source
does at every level of Oinc.__parse_tree: it searches the node itself
and its direct children (maxlevel=2) for a node whose name attribute
equals v, which may be None (Python None never equals a node name). -/
def findByAttr (t : OincTree) (v : Option PyVal) : Option OincTree :=
  if some (treeName t) = v then some t
  else (treeChildren t).find? (fun c => decide (some (treeName c) = v))

/-- Oinc.__parse_tree (oinc.py lines 175-214): walks the tree level by
level, looking up info.get with the keys srcMac, srcIP, dstIP, dstPort
and packet_size, keeping None for every level at which the lookup found
nothing.  Note the keys: extract_int_data produces devMac, devAddr,
dstAddr, dstPort and packetLen, so the srcMac, srcIP, dstIP and
packet_size lookups read keys that are never present.  No branch of the
source creates any node. -/
def parse_tree (tree : OincTree) (info : List (String × PyVal)) :
    Option OincTree × Option OincTree × Option OincTree ×
      Option OincTree × Option OincTree :=
  match findByAttr tree (dictGet info "srcMac") with
  | none => (none, none, none, none, none)
  | some mc =>
    match findByAttr mc (dictGet info "srcIP") with
    | none => (some mc, none, none, none, none)
    | some src_ip =>
      match findByAttr src_ip (dictGet info "dstIP") with
      | none => (some mc, some src_ip, none, none, none)
      | some dst_ip =>
        match findByAttr dst_ip (dictGet info "dstPort") with
        | none => (some mc, some src_ip, some dst_ip, none, none)
        | some dst_port =>
          match findByAttr dst_port (dictGet info "packet_size") with
          | none => (some mc, some src_ip, some dst_ip, some dst_port, none)
          | some packet_size =>
            (some mc, some src_ip, some dst_ip, some dst_port,
             some packet_size)

/-- The attack dict Oinc sends (oinc.py lines 248-254): the names of
the five resolved tree nodes plus the classification label. -/
structure OincAttackDict where
  src_mac : PyVal
  src_ip : PyVal
  dst_ip : PyVal
  dst_port : PyVal
  packet_size : PyVal
  attack_type : String
  deriving DecidableEq

/-- Oinc.__packet_with_mac (oinc.py lines 230-260) acting on the count
node of the resolved packet-size leaf.  sample_interval is the
configured sample interval held by the engine (self.sample_interval);
the source never reads it here - the window reset compares delta
against the literal 60.  Steps, in source order: increment value;
delta = now - time; pps = value / delta (the source raises
ZeroDivisionError when delta = 0; rational division by zero yields 0
instead, so statements about pps assume delta is nonzero); if
value > 3 and pps > 100 and not attack, set attack and send the attack
dict (a send failure is caught and only logged - it changes nothing);
finally, if delta > 60, reset time to now and value to 1. -/
def packet_with_mac (sample_interval : ℚ)
    (mac src_ip dst_ip dst_port packet_size : PyVal)
    (count : CountNode) (now : ℚ) : CountNode × Option OincAttackDict :=
  let value1 := count.value + 1
  let delta := now - count.time
  let pps1 := (value1 : ℚ) / delta
  let fire := value1 > 3 ∧ pps1 > 100 ∧ count.attack = false
  let attack1 := if fire then true else count.attack
  let notif : Option OincAttackDict :=
    if fire then
      some { src_mac := mac, src_ip := src_ip, dst_ip := dst_ip,
             dst_port := dst_port, packet_size := packet_size,
             attack_type := "UDP Flood" }
    else none
  let c1 : CountNode :=
    { value := value1, time := count.time, pps := pps1, attack := attack1 }
  let c2 := if delta > 60 then { c1 with time := now, value := 1 } else c1
  (c2, notif)

/-- Repeated observations of one flow: folds packet_with_mac over a
list of observation times, keeping the count node (the notifier outcome
is dropped; it never feeds back into the node). -/
def oincObserveSeq (sample_interval : ℚ)
    (mac src_ip dst_ip dst_port packet_size : PyVal)
    (c : CountNode) (ts : List ℚ) : CountNode :=
  ts.foldl
    (fun acc t =>
      (packet_with_mac sample_interval mac src_ip dst_ip dst_port
        packet_size acc t).1)
    c

/-- The layer-binding phase of device_sniff
(receive_packets.py lines 99-124), up to the call of sniff: for
int_hops greater than 0 it binds the INT layer chain for 1, 2 or 3 hops
and raises for more than 3 hops; otherwise it binds plain UDP.  The
result is the list of (lower, upper) layer bindings installed, or the
raised error message. -/
def device_sniff_setup (int_hops : Int) :
    Except String (List (String × String)) :=
  if int_hops > 0 then
    let b0 := [("Ether", "IP"), ("IP", "IntShim"), ("IntShim", "IntHeader")]
    let b1 :=
      if int_hops = 1 then
        [("IntHeader", "SourceIntMeta"), ("SourceIntMeta", "UDP")]
      else []
    let b2 :=
      if int_hops = 2 then
        [("IntHeader", "IntMeta2"), ("IntMeta2", "SourceIntMeta"),
         ("SourceIntMeta", "UDP")]
      else []
    let b3 :=
      if int_hops = 3 then
        [("IntHeader", "IntMeta1"), ("IntMeta1", "IntMeta2"),
         ("IntMeta2", "SourceIntMeta"), ("SourceIntMeta", "UDP")]
      else []
    if int_hops > 3 then
      Except.error "Cannot currently support more than 3 hops"
    else
      Except.ok (b0 ++ b1 ++ b2 ++ b3)
  else
    Except.ok [("Ether", "IP"), ("IP", "UDP")]

/-- device_sniff including the sniffing phase: only when setup
succeeded does sniff run and hand each arriving frame to the
__log_packet callback; on a configuration error the error propagates
and no frame is ever processed.  The frames argument stands for the
frames the sniffer would deliver; the ok result lists the frames that
reached the callback. -/
def device_sniff (int_hops : Int) (frames : List Packet) :
    Except String (List Packet) :=
  match device_sniff_setup int_hops with
  | .error e => .error e
  | .ok _ => .ok frames

/-- A concrete extracted record used for witness runs: the 5-tuple of
the end-to-end scenario of the specification. -/
def dSample : IntData :=
  { devMac := "AA:BB", devAddr := "10.0.0.1", switchId := 1,
    dstAddr := "10.0.0.2", dstPort := 5000, protocol := 17,
    packetLen := 64 }

/-- A frame carrying every layer the extractor reads; extracting it
yields dSample. -/
def pFull : Packet :=
  { ether := some { src := "AA:BB", dst := "FF:FF" },
    ip := some { src := "10.0.0.1", dst := "10.0.0.2", proto := 17 },
    swInspect := some { switch_id := 1 },
    gwInspect := some { src_mac := "AA:BB" },
    udp := some { sport := 1000, dport := 5000 },
    len := 64 }

/-- The same frame with the transport layer missing. -/
def pNoUdp : Packet :=
  { ether := some { src := "AA:BB", dst := "FF:FF" },
    ip := some { src := "10.0.0.1", dst := "10.0.0.2", proto := 17 },
    swInspect := some { switch_id := 1 },
    gwInspect := some { src_mac := "AA:BB" },
    udp := none,
    len := 64 }

-- Helper lemmas shared by the claim theorems.

/-- Reading back the key just written into a dict model. -/
theorem mapGet_mapSet_self {α β : Type} [DecidableEq α]
    (m : List (α × β)) (k : α) (v : β) : mapGet (mapSet m k v) k = some v := by
  induction m with
  | nil => simp [mapSet, mapGet]
  | cons kv rest ih =>
    obtain ⟨a, b⟩ := kv
    by_cases h : a = k
    · subst h
      simp [mapSet, mapGet]
    · simp [mapSet, mapGet, h, ih]

/-- anytree findall_by_attr never matches the Python value None against
a node name. -/
theorem findByAttr_none (t : OincTree) : findByAttr t none = none := by
  cases t with
  | mk nm cnt cs =>
    simp [findByAttr, treeName, treeChildren, List.find?_eq_none]

/-- The extracted-data dict has no srcMac key. -/
theorem dictGet_srcMac (d : IntData) :
    dictGet (intDataDict d) "srcMac" = none := rfl

/-- Claim C1: refuted by the source - Oinc.__parse_tree resolves the
path with info.get keys (srcMac, srcIP, dstIP, dstPort, packet_size)
while extract_int_data produces the keys devMac, devAddr, dstAddr,
dstPort and packetLen, so the very first lookup searches for the Python
value None and finds nothing, and no branch of Oinc creates a tree
node.  Hence for every tree and every extracted record the walk
resolves no level at all: the claimed create-missing-levels insert and
returned leaf counter do not exist, and no observed flow is ever
counted. -/
theorem oinc_parse_tree_never_resolves (t : OincTree) (d : IntData) :
    parse_tree t (intDataDict d) = (none, none, none, none, none) := by
  unfold parse_tree
  rw [dictGet_srcMac, findByAttr_none]

/-- Claim C6: flow-record extraction is all-or-nothing - the result is
present exactly when the gateway-inspect, IP, switch-inspect and UDP
layers are all present, and a present result carries every field read
from those layers; a missing layer yields absence, never a partial
record, and the embedded function is total (the source catches the
raised exception). -/
theorem extract_int_data_all_or_nothing (p : Packet) :
    ((extract_int_data p).isSome ↔
      (p.gwInspect.isSome ∧ p.ip.isSome ∧ p.swInspect.isSome ∧
        p.udp.isSome)) ∧
    (∀ r : IntData, extract_int_data p = some r →
      ∃ gw ipl sw ud, p.gwInspect = some gw ∧ p.ip = some ipl ∧
        p.swInspect = some sw ∧ p.udp = some ud ∧
        r = { devMac := gw.src_mac, devAddr := ipl.src,
              switchId := sw.switch_id, dstAddr := ipl.dst,
              dstPort := ud.dport, protocol := ipl.proto,
              packetLen := p.len }) := by
  obtain ⟨e, ip, sw, gw, ud, ln⟩ := p
  cases ip <;> cases sw <;> cases gw <;> cases ud <;>
    simp [extract_int_data]

/-- Claim C6 witness: a frame missing only the transport layer extracts
to nothing, while the full frame extracts to a record. -/
theorem extract_int_data_all_or_nothing_witness :
    extract_int_data pNoUdp = none ∧ (extract_int_data pFull).isSome := by
  constructor
  · have h := (extract_int_data_all_or_nothing pNoUdp).1
    rw [← Option.not_isSome_iff_eq_none]
    intro hs
    have hall := h.mp hs
    simp [pNoUdp] at hall
  · exact (extract_int_data_all_or_nothing pFull).1.mpr (by simp [pFull])

/-- Claim C2: the in-window half holds (three identical observations at
times 0, 1, 2 under sample_interval 60 count 1, 2, 3), but the
stale-exclusion half fails on the source: a fourth identical
observation at time 100, after the window fully elapsed, yields
count_in_window 0 - not 1 for the one in-window observation - and the
stored list keeps the stale timestamp 1 (100 - 1 > 60), because
times.remove inside the iteration shifts the list and skips the next
element.  Each conjunct evaluates the embedded code on that run. -/
theorem simpleae_sliding_window_failure :
    (observeStep ⟨100, 60⟩ ⟨[], []⟩ dSample 0).2 = 1 ∧
    (simpleProcess ⟨100, 60⟩ ⟨[], []⟩ dSample 0 true).2.1
      = ⟨[(dSample, [0])], []⟩ ∧
    (observeStep ⟨100, 60⟩ ⟨[(dSample, [0])], []⟩ dSample 1).2 = 2 ∧
    (simpleProcess ⟨100, 60⟩ ⟨[(dSample, [0])], []⟩ dSample 1 true).2.1
      = ⟨[(dSample, [0, 1])], []⟩ ∧
    (observeStep ⟨100, 60⟩ ⟨[(dSample, [0, 1])], []⟩ dSample 2).2 = 3 ∧
    (simpleProcess ⟨100, 60⟩ ⟨[(dSample, [0, 1])], []⟩ dSample 2 true).2.1
      = ⟨[(dSample, [0, 1, 2])], []⟩ ∧
    (observeStep ⟨100, 60⟩ ⟨[(dSample, [0, 1, 2])], []⟩ dSample 100).2 = 0 ∧
    (simpleProcess ⟨100, 60⟩ ⟨[(dSample, [0, 1, 2])], []⟩ dSample 100
        true).2.1 = ⟨[(dSample, [1, 100])], []⟩ ∧
    (100 : ℚ) - 1 > 60 := by
  refine ⟨?_, ?_, ?_, ?_, ?_, ?_, ?_, ?_, ?_⟩ <;>
    norm_num [observeStep, observeTimes, pruneRun, pruneFuel, listRemove,
      mapGet, mapSet, simpleProcess, attackDictOf]

/-- Claim C7: end-to-end hashed-strategy scenario.  With threshold 2
and interval 60, three frames carrying the identical extracted fields
(devMac AA:BB, devAddr 10.0.0.1, dstAddr 10.0.0.2, dstPort 5000,
protocol 17, packetLen 64) arrive at times 0, 2 and 4 seconds and are
processed with the matching ip_proto filter 17: the first two calls
push nothing, the third - and only the third - pushes one attack dict
whose attack_type is UDP Flood and whose fields echo the extracted
5-tuple, and it reports the attack to the caller. -/
theorem simpleae_end_to_end_scenario :
    (simpleProcessPacket ⟨2, 60⟩ ⟨[], []⟩ pFull 17 0 true).2.2 = none ∧
    (simpleProcessPacket ⟨2, 60⟩ ⟨[], []⟩ pFull 17 0 true).2.1
      = ⟨[(dSample, [0])], []⟩ ∧
    (simpleProcessPacket ⟨2, 60⟩ ⟨[(dSample, [0])], []⟩ pFull 17 2
        true).2.2 = none ∧
    (simpleProcessPacket ⟨2, 60⟩ ⟨[(dSample, [0])], []⟩ pFull 17 2
        true).2.1 = ⟨[(dSample, [0, 2])], []⟩ ∧
    (simpleProcessPacket ⟨2, 60⟩ ⟨[(dSample, [0, 2])], []⟩ pFull 17 4
        true).2.2
      = some { src_mac := "AA:BB", src_ip := "10.0.0.1",
               dst_ip := "10.0.0.2", dst_port := 5000, packet_size := 64,
               attack_type := "UDP Flood" } ∧
    (simpleProcessPacket ⟨2, 60⟩ ⟨[(dSample, [0, 2])], []⟩ pFull 17 4
        true).1 = true ∧
    (simpleProcessPacket ⟨2, 60⟩ ⟨[(dSample, [0, 2])], []⟩ pFull 17 4
        true).2.1 = ⟨[(dSample, [0, 2, 4])], [(dSample, 4)]⟩ := by
  refine ⟨?_, ?_, ?_, ?_, ?_, ?_, ?_⟩ <;>
    norm_num [simpleProcessPacket, extract_int_data, pFull, dSample,
      observeStep, observeTimes, pruneRun, pruneFuel, listRemove,
      mapGet, mapSet, simpleProcess, attackDictOf]

/-- Claim C3: hashed-strategy debounce.  Whenever the windowed count
exceeds packet_count, the notifier is invoked iff the stored last
notification time for the key is absent or more than the renotify
interval (the source hard-codes 1 second, the default of
min_renotify_interval_seconds) before now, in which case the stored
time becomes now; otherwise the notification is suppressed, the stored
time is untouched and the call reports no new attack.  The hpos
hypothesis states that stored notification times are positive
wall-clock instants, ruling out the Python-truthiness corner in which a
stored time of exactly 0 counts as absent. -/
theorem simpleae_debounce_rule (cfg : AEConfig) (st : SimpleAEState)
    (d : IntData) (now : ℚ) (send_ok : Bool)
    (hcnt : (observeStep cfg st d now).2 > cfg.packet_count)
    (hpos : ∀ la, mapGet st.attack_map d = some la → 0 < la) :
    ((simpleProcess cfg st d now send_ok).2.2.isSome ↔
      (mapGet st.attack_map d = none ∨
        ∃ la, mapGet st.attack_map d = some la ∧ now - la > 1)) ∧
    ((simpleProcess cfg st d now send_ok).2.2.isSome →
      (simpleProcess cfg st d now send_ok).2.2 = some (attackDictOf d) ∧
      mapGet (simpleProcess cfg st d now send_ok).2.1.attack_map d
        = some now) ∧
    ((simpleProcess cfg st d now send_ok).2.2 = none →
      (simpleProcess cfg st d now send_ok).1 = false ∧
      (simpleProcess cfg st d now send_ok).2.1.attack_map
        = st.attack_map) := by
  simp only [simpleProcess]
  rw [if_pos hcnt]
  cases hla : mapGet st.attack_map d with
  | none => simp [mapGet_mapSet_self]
  | some la =>
    have hla0 : ¬ la = 0 := by
      have hp := hpos la hla
      intro h0
      rw [h0] at hp
      exact lt_irrefl 0 hp
    dsimp only
    by_cases hgt : now - la > 1
    · rw [if_pos (Or.inr hgt)]
      simp [mapGet_mapSet_self, hgt]
    · rw [if_neg (by simp [hla0, hgt])]
      simp [hgt]

/-- Claim C3 witness: with threshold 0 and no earlier notification, an
observation at time 1 exceeds the threshold, the debounce is open, one
notifier call is made and the stored last-notification time becomes
1. -/
theorem simpleae_debounce_rule_witness :
    (simpleProcess ⟨0, 60⟩ ⟨[], []⟩ dSample 1 true).2.2
      = some (attackDictOf dSample) ∧
    mapGet (simpleProcess ⟨0, 60⟩ ⟨[], []⟩ dSample 1 true).2.1.attack_map
      dSample = some 1 := by
  have h := simpleae_debounce_rule ⟨0, 60⟩ ⟨[], []⟩ dSample 1 true
    (by norm_num [observeStep, observeTimes, pruneRun, pruneFuel, mapGet])
    (by intro la hla; simp [mapGet] at hla)
  exact h.2.1 (h.1.mpr (Or.inl rfl))

/-- Claim C4 counterexample: a flow whose window starts at time 0
receives 4 observations at times 1/5, 2/5, 3/5 and 4/5 - all within 1
second - yet attack stays false, because the rate is 4 / (4/5) = 5
packets per second, far below the 100 pkts/sec floor the source also
requires; the count does reach 4 (greater than 3). -/
theorem oinc_four_in_one_second_no_attack :
    (oincObserveSeq 60 (.s "AA:BB") (.s "10.0.0.1") (.s "10.0.0.2")
        (.n 5000) (.n 64) ⟨0, 0, 0, false⟩ [1/5, 2/5, 3/5, 4/5]).attack
      = false ∧
    (oincObserveSeq 60 (.s "AA:BB") (.s "10.0.0.1") (.s "10.0.0.2")
        (.n 5000) (.n 64) ⟨0, 0, 0, false⟩ [1/5, 2/5, 3/5, 4/5]).value
      = 4 ∧
    (4 : ℚ) / 5 - 0 ≤ 1 := by
  refine ⟨?_, ?_, ?_⟩ <;>
    norm_num [oincObserveSeq, packet_with_mac]

/-- Claim C4 as amended: on a repeat observation the count increments
and the rate is recomputed from the pre-reset window start; the
notifier fires (synchronously, with the UDP Flood dict) exactly when
the incremented count exceeds 3, the rate exceeds 100 pkts/sec and the
flag is not already set; the flag afterwards holds exactly when the
threshold pair held now or the flag was already set, so it is sticky -
in particular 4 observations within one second set it only when the
rate also exceeds 100/sec (for example all 4 within 1/100 s). -/
theorem oinc_attack_flag_rule (si : ℚ) (mc sip dip dpt psz : PyVal)
    (c : CountNode) (now : ℚ) :
    ((packet_with_mac si mc sip dip dpt psz c now).2.isSome ↔
      (c.value + 1 > 3 ∧ ((c.value + 1 : Nat) : ℚ) / (now - c.time) > 100 ∧
        c.attack = false)) ∧
    ((packet_with_mac si mc sip dip dpt psz c now).1.attack = true ↔
      ((c.value + 1 > 3 ∧ ((c.value + 1 : Nat) : ℚ) / (now - c.time) > 100)
        ∨ c.attack = true)) ∧
    (c.attack = true →
      (packet_with_mac si mc sip dip dpt psz c now).1.attack = true) ∧
    ((packet_with_mac si mc sip dip dpt psz c now).2.isSome →
      (packet_with_mac si mc sip dip dpt psz c now).2
        = some { src_mac := mc, src_ip := sip, dst_ip := dip,
                 dst_port := dpt, packet_size := psz,
                 attack_type := "UDP Flood" }) := by
  simp only [packet_with_mac]
  cases hc : c.attack <;>
    by_cases hab : (c.value + 1 > 3 ∧
        ((c.value + 1 : Nat) : ℚ) / (now - c.time) > 100) <;>
    by_cases hr : now - c.time > 60 <;>
    simp [hc, hab, hr]

/-- Claim C4 witness: a flow already at count 3 with window start 0
observed again at time 1/100 has count 4 and rate 400/sec, so the flag
is set and a notification is produced. -/
theorem oinc_attack_flag_rule_witness :
    (packet_with_mac 60 (.s "AA:BB") (.s "10.0.0.1") (.s "10.0.0.2")
        (.n 5000) (.n 64) ⟨3, 0, 0, false⟩ (1/100)).1.attack = true ∧
    (packet_with_mac 60 (.s "AA:BB") (.s "10.0.0.1") (.s "10.0.0.2")
        (.n 5000) (.n 64) ⟨3, 0, 0, false⟩ (1/100)).2.isSome := by
  have h := oinc_attack_flag_rule 60 (.s "AA:BB") (.s "10.0.0.1")
    (.s "10.0.0.2") (.n 5000) (.n 64) ⟨3, 0, 0, false⟩ (1/100)
  constructor
  · exact h.2.1.mpr (Or.inl (by norm_num))
  · exact h.1.mpr (by norm_num)

/-- Claim C5 counterexample: with the configured sample interval set to
30 seconds, a flow whose window started at time 0 and whose count is 5
is observed again at time 45.  The elapsed 45 seconds exceed the
configured interval, so the claim requires a reset to count 1 and
window start 45; the source compares the elapsed time against the
literal 60, not the configured interval, and leaves count at 6 and the
window start at 0. -/
theorem oinc_window_reset_ignores_interval :
    (packet_with_mac 30 (.s "AA:BB") (.s "10.0.0.1") (.s "10.0.0.2")
        (.n 5000) (.n 64) ⟨5, 0, 0, false⟩ 45).1.value = 6 ∧
    (packet_with_mac 30 (.s "AA:BB") (.s "10.0.0.1") (.s "10.0.0.2")
        (.n 5000) (.n 64) ⟨5, 0, 0, false⟩ 45).1.time = 0 ∧
    (45 : ℚ) - 0 > 30 := by
  refine ⟨?_, ?_, ?_⟩ <;>
    norm_num [packet_with_mac]

/-- Claim C5 as amended: the per-flow window resets (count to 1, window
start to now) exactly when the elapsed time since the window start
exceeds 60 seconds - the hard-coded literal, not the configured
sample_interval_seconds, which the hierarchical strategy ignores - and
the reset is applied only after the attack evaluation, so the packet
triggering the reset is still evaluated with the pre-reset count and
the pre-reset elapsed time. -/
theorem oinc_window_reset_rule (si : ℚ) (mc sip dip dpt psz : PyVal)
    (c : CountNode) (now : ℚ) :
    (now - c.time > 60 →
      (packet_with_mac si mc sip dip dpt psz c now).1.value = 1 ∧
      (packet_with_mac si mc sip dip dpt psz c now).1.time = now) ∧
    (¬ now - c.time > 60 →
      (packet_with_mac si mc sip dip dpt psz c now).1.value = c.value + 1 ∧
      (packet_with_mac si mc sip dip dpt psz c now).1.time = c.time) ∧
    ((packet_with_mac si mc sip dip dpt psz c now).2.isSome ↔
      (c.value + 1 > 3 ∧ ((c.value + 1 : Nat) : ℚ) / (now - c.time) > 100 ∧
        c.attack = false)) := by
  simp only [packet_with_mac]
  by_cases hf : (c.value + 1 > 3 ∧
      ((c.value + 1 : Nat) : ℚ) / (now - c.time) > 100 ∧
      c.attack = false) <;>
    by_cases hr : now - c.time > 60 <;>
    simp [hf, hr]

/-- Claim C5 witness: a flow at count 2 with window start 0 observed at
time 100 (elapsed 100 > 60) is reset to count 1 with window start
100, and that observation produces no notification (count 3 is not
above 3). -/
theorem oinc_window_reset_rule_witness :
    (packet_with_mac 60 (.s "AA:BB") (.s "10.0.0.1") (.s "10.0.0.2")
        (.n 5000) (.n 64) ⟨2, 0, 0, false⟩ 100).1.value = 1 ∧
    (packet_with_mac 60 (.s "AA:BB") (.s "10.0.0.1") (.s "10.0.0.2")
        (.n 5000) (.n 64) ⟨2, 0, 0, false⟩ 100).1.time = 100 ∧
    ¬ (packet_with_mac 60 (.s "AA:BB") (.s "10.0.0.1") (.s "10.0.0.2")
        (.n 5000) (.n 64) ⟨2, 0, 0, false⟩ 100).2.isSome := by
  have h := oinc_window_reset_rule 60 (.s "AA:BB") (.s "10.0.0.1")
    (.s "10.0.0.2") (.n 5000) (.n 64) ⟨2, 0, 0, false⟩ 100
  refine ⟨(h.1 (by norm_num)).1, (h.1 (by norm_num)).2, ?_⟩
  intro hs
  have := h.2.2.mp hs
  norm_num at this

/-- Claim C8: a configured hop count above 3 is rejected during the
layer-binding phase of device_sniff, before sniffing starts: the setup
raises, the raise propagates out of device_sniff, and no frame ever
reaches the per-packet callback. -/
theorem device_sniff_rejects_hop_count (h : Int) (frames : List Packet)
    (hh : 3 < h) :
    device_sniff h frames
      = .error "Cannot currently support more than 3 hops" ∧
    device_sniff_setup h
      = .error "Cannot currently support more than 3 hops" := by
  have h0 : h > 0 := by omega
  have hsetup : device_sniff_setup h
      = .error "Cannot currently support more than 3 hops" := by
    simp only [device_sniff_setup]
    rw [if_pos h0, if_pos hh]
  exact ⟨by simp [device_sniff, hsetup], hsetup⟩

/-- Claim C8 witness: hop count 4 is rejected with the fatal
configuration error and the pending frame is never processed. -/
theorem device_sniff_rejects_hop_count_witness :
    device_sniff 4 [pFull]
      = .error "Cannot currently support more than 3 hops" := by
  exact (device_sniff_rejects_hop_count 4 [pFull] (by norm_num)).1

/-- Helper: whenever SimpleAE.__process invoked the notifier, the
stored last-notification time for the key became now and the returned
boolean is exactly the notifier outcome. -/
theorem simpleProcess_fired (cfg : AEConfig) (st : SimpleAEState)
    (d : IntData) (now : ℚ) (send_ok : Bool)
    (hfired : ((simpleProcess cfg st d now send_ok).2.2).isSome) :
    mapGet (simpleProcess cfg st d now send_ok).2.1.attack_map d
      = some now ∧
    (simpleProcess cfg st d now send_ok).1 = send_ok := by
  simp only [simpleProcess] at hfired ⊢
  by_cases hcnt : (observeStep cfg st d now).2 > cfg.packet_count
  · rw [if_pos hcnt] at hfired ⊢
    cases hla : mapGet st.attack_map d with
    | none =>
      simp [mapGet_mapSet_self]
    | some la =>
      rw [hla] at hfired
      dsimp only at hfired ⊢
      by_cases hg : (la = 0 ∨ now - la > 1)
      · rw [if_pos hg]
        simp [mapGet_mapSet_self]
      · rw [if_neg hg] at hfired
        simp at hfired
  · rw [if_neg hcnt] at hfired
    simp at hfired

/-- Helper: with a stored last-notification time that is neither zero
nor more than 1 second before now, SimpleAE.__process never invokes the
notifier and reports no new attack, regardless of the count. -/
theorem simpleProcess_suppressed (cfg : AEConfig) (st : SimpleAEState)
    (d : IntData) (now la : ℚ)
    (hla : mapGet st.attack_map d = some la)
    (h0 : ¬ la = 0) (h1 : ¬ now - la > 1) (send_ok : Bool) :
    (simpleProcess cfg st d now send_ok).2.2 = none ∧
    (simpleProcess cfg st d now send_ok).1 = false := by
  simp only [simpleProcess]
  by_cases hcnt : (observeStep cfg st d now).2 > cfg.packet_count
  · rw [if_pos hcnt, hla]
    dsimp only
    rw [if_neg (by simp [h0, h1])]
    simp
  · rw [if_neg hcnt]
    simp

/-- Claim C9: a notifier failure leaves the detection state exactly as
a successful call would - the stored per-flow timestamp lists and the
debounce map after a failed call equal those after a successful one,
the per-key list holds the value recorded by this observation, exactly
the same single notify attempt is made (no retry), and the failure is
surfaced as a False return to the caller instead of an exception, so
the capture loop continues. -/
theorem notify_failure_preserves_counters (cfg : AEConfig)
    (st : SimpleAEState) (d : IntData) (now : ℚ) :
    (simpleProcess cfg st d now false).2.1
      = (simpleProcess cfg st d now true).2.1 ∧
    (simpleProcess cfg st d now false).2.2
      = (simpleProcess cfg st d now true).2.2 ∧
    mapGet (simpleProcess cfg st d now false).2.1.count_map d
      = some (observeStep cfg st d now).1 ∧
    ((simpleProcess cfg st d now false).2.2.isSome →
      (simpleProcess cfg st d now false).1 = false ∧
      (simpleProcess cfg st d now true).1 = true) := by
  simp only [simpleProcess]
  by_cases hcnt : (observeStep cfg st d now).2 > cfg.packet_count
  · rw [if_pos hcnt, if_pos hcnt]
    cases hla : mapGet st.attack_map d with
    | none => simp [mapGet_mapSet_self]
    | some la =>
      dsimp only
      by_cases hg : (la = 0 ∨ now - la > 1)
      · rw [if_pos hg, if_pos hg]
        simp [mapGet_mapSet_self]
      · rw [if_neg hg, if_neg hg]
        simp [mapGet_mapSet_self]
  · rw [if_neg hcnt, if_neg hcnt]
    simp [mapGet_mapSet_self]

/-- Claim C9 witness: at threshold 0 an observation at time 1 attempts
a notification; with the notifier failing the call returns False where
the successful run returns True, and the per-flow timestamp list holds
the recorded observation either way. -/
theorem notify_failure_preserves_counters_witness :
    (simpleProcess ⟨0, 60⟩ ⟨[], []⟩ dSample 1 false).1 = false ∧
    (simpleProcess ⟨0, 60⟩ ⟨[], []⟩ dSample 1 true).1 = true ∧
    mapGet (simpleProcess ⟨0, 60⟩ ⟨[], []⟩ dSample 1
        false).2.1.count_map dSample = some [1] := by
  have h := notify_failure_preserves_counters ⟨0, 60⟩ ⟨[], []⟩ dSample 1
  have hs : ((simpleProcess ⟨0, 60⟩ ⟨[], []⟩ dSample 1 false).2.2).isSome := by
    norm_num [simpleProcess, observeStep, observeTimes, pruneRun,
      pruneFuel, mapGet, mapSet]
  obtain ⟨hf, ht⟩ := h.2.2.2 hs
  refine ⟨hf, ht, ?_⟩
  rw [h.2.2.1]
  norm_num [observeStep, observeTimes, pruneRun, pruneFuel, mapGet]

/-- Claim C10: the debounce is armed before the notifier runs, so a
failed notification still stores its time - a first call at time t that
attempts a notification with the notifier failing returns False yet
records t, and any further observation of the same key at a time u
within the 1-second renotify interval is suppressed: no notification is
attempted for it at all. -/
theorem debounce_armed_on_notify_failure (cfg : AEConfig)
    (st : SimpleAEState) (d : IntData) (t u : ℚ)
    (hfired : ((simpleProcess cfg st d t false).2.2).isSome)
    (ht : 0 < t) (hu : u - t ≤ 1) :
    (simpleProcess cfg st d t false).1 = false ∧
    mapGet (simpleProcess cfg st d t false).2.1.attack_map d = some t ∧
    (simpleProcess cfg (simpleProcess cfg st d t false).2.1 d u
        false).2.2 = none ∧
    (simpleProcess cfg (simpleProcess cfg st d t false).2.1 d u
        false).1 = false := by
  have h1 := simpleProcess_fired cfg st d t false hfired
  have h2 := simpleProcess_suppressed cfg
    (simpleProcess cfg st d t false).2.1 d u t h1.1
    (fun hz => by rw [hz] at ht; exact lt_irrefl 0 ht)
    (not_lt.mpr hu) false
  exact ⟨h1.2, h1.1, h2.1, h2.2⟩

/-- Claim C10 witness: threshold 0, first observation at time 1 with a
failing notifier, second observation at time 3/2 - within the renotify
interval: the first call reports False but stores time 1, and the
second attempts no notification. -/
theorem debounce_armed_on_notify_failure_witness :
    (simpleProcess ⟨0, 60⟩ ⟨[], []⟩ dSample 1 false).1 = false ∧
    mapGet (simpleProcess ⟨0, 60⟩ ⟨[], []⟩ dSample 1
        false).2.1.attack_map dSample = some 1 ∧
    (simpleProcess ⟨0, 60⟩
        (simpleProcess ⟨0, 60⟩ ⟨[], []⟩ dSample 1 false).2.1 dSample (3/2)
        false).2.2 = none ∧
    (simpleProcess ⟨0, 60⟩
        (simpleProcess ⟨0, 60⟩ ⟨[], []⟩ dSample 1 false).2.1 dSample (3/2)
        false).1 = false := by
  exact debounce_armed_on_notify_failure ⟨0, 60⟩ ⟨[], []⟩ dSample 1 (3/2)
    (by norm_num [simpleProcess, observeStep, observeTimes, pruneRun,
        pruneFuel, mapGet, mapSet])
    (by norm_num) (by norm_num)

end TransSec
